import Mathlib

/-!
Shallow embedding of `src/main.py` (a one-shot ETL job: fetch random users
from randomuser.me, COPY them into `api_results`, then derive `identities`
and `profiles` with two `INSERT ... SELECT ... ON CONFLICT DO NOTHING`
statements against a PostgreSQL database).

The embedding models:
  * JSON documents (`Json`), Python `json.dumps` serialization (`render`),
    and the PostgreSQL `json` operators `->` and `->>` used by the two
    transformation statements;
  * the database as three optional tables (`DB`); a missing table means the
    relation does not exist, and a statement touching it fails and (because
    every stage runs inside one `with conn` transaction) rolls back, which
    we model as leaving the state unchanged;
  * `copy_from(StringIO(json.dumps(users)), "api_results")`: COPY text
    format reads one row per line; `json.dumps` of a list emits a single
    line, so the whole batch becomes ONE row whose document is the JSON
    array.  COPY also re-interprets backslash escapes, so a serialization
    that contains a backslash (any character that `json.dumps` escapes)
    does not round-trip; for such inputs the data is corrupted or rejected
    and we model the statement as a rolled-back no-op.  No claim depends on
    records that need escaping.
  * `to_timestamp` on `data->'dob'->>'date'` is kept as the unparsed text
    argument: no property below observes the parsed timestamp, and which
    duplicate row survives a conflict is unspecified anyway.
-/

namespace RandomUserMe

/-- JSON documents, as produced by `resp.json()` and stored in the `data json`
column of `api_results` (src/main.py lines 97-101). -/
inductive Json where
  | null
  | bool (b : Bool)
  | num (n : Int)
  | str (s : String)
  | arr (xs : List Json)
  | obj (fields : List (String × Json))

/-- Lowercase hexadecimal digit, as used by `json.dumps` in `\uXXXX` escapes. -/
def hexDigit (n : Nat) : Char :=
  if n < 10 then Char.ofNat (48 + n) else Char.ofNat (87 + n)

/-- Four-digit lowercase hexadecimal rendering of `n % 0x10000`. -/
def hex4 (n : Nat) : String :=
  String.mk [hexDigit (n / 4096 % 16), hexDigit (n / 256 % 16),
             hexDigit (n / 16 % 16), hexDigit (n % 16)]

/-- Escaping of one character inside a JSON string literal, following
Python `json.dumps` with its default `ensure_ascii=True`: quote, backslash
and control characters get two-character escapes or `\uXXXX`, non-ASCII
characters get `\uXXXX` (a surrogate pair beyond the BMP). -/
def escapeChar (c : Char) : String :=
  if c == '"' then "\\\""
  else if c == '\\' then "\\\\"
  else if c == '\n' then "\\n"
  else if c == '\t' then "\\t"
  else if c == '\r' then "\\r"
  else if c == '\x08' then "\\b"
  else if c == '\x0c' then "\\f"
  else if decide (c.toNat < 0x20) then "\\u" ++ hex4 c.toNat
  else if decide (c.toNat < 0x80) then String.singleton c
  else if decide (c.toNat < 0x10000) then "\\u" ++ hex4 c.toNat
  else "\\u" ++ hex4 (0xd800 + (c.toNat - 0x10000) / 0x400) ++
       "\\u" ++ hex4 (0xdc00 + (c.toNat - 0x10000) % 0x400)

/-- Escaping of a whole JSON string body. -/
def escapeString (s : String) : String :=
  String.join (s.data.map escapeChar)

/-- JSON string literal: quotes around the escaped body. -/
def renderStr (s : String) : String :=
  "\"" ++ escapeString s ++ "\""

mutual

/-- Serialization of a JSON document in the style of Python
`json.dumps` (default separators); this is also the text PostgreSQL's
output function yields for a `json` value originating from that text,
which is what `CONCAT` and the assignment cast to `TEXT` see. -/
def render : Json → String
  | .null => "null"
  | .bool true => "true"
  | .bool false => "false"
  | .num n => toString n
  | .str s => renderStr s
  | .arr xs => "[" ++ renderList xs ++ "]"
  | .obj fs => "\x7b" ++ renderFields fs ++ "\x7d"

/-- Serialization of the elements of a JSON array, separated by `, `. -/
def renderList : List Json → String
  | [] => ""
  | j :: rest => render j ++ (if rest.isEmpty then "" else ", ") ++ renderList rest

/-- Serialization of the fields of a JSON object, separated by `, `. -/
def renderFields : List (String × Json) → String
  | [] => ""
  | (k, v) :: rest =>
      renderStr k ++ ": " ++ render v ++ (if rest.isEmpty then "" else ", ") ++ renderFields rest

end

/-- Characters that survive the `json.dumps` / COPY-text-format round trip
unescaped: printable ASCII other than the quote and the backslash. -/
def cleanChar (c : Char) : Bool :=
  decide (0x20 ≤ c.toNat) && decide (c.toNat < 0x80) && !(c == '"') && !(c == '\\')

mutual

/-- Predicate: serializing this document with `json.dumps` emits no
backslash, so the single line survives `copy_from`'s text-format escape
processing unchanged and parses back to the same document. -/
def cleanJson : Json → Bool
  | .null => true
  | .bool _ => true
  | .num _ => true
  | .str s => s.data.all cleanChar
  | .arr xs => cleanList xs
  | .obj fs => cleanFields fs

/-- Clean predicate on the elements of an array. -/
def cleanList : List Json → Bool
  | [] => true
  | j :: rest => cleanJson j && cleanList rest

/-- Clean predicate on object fields (keys and values). -/
def cleanFields : List (String × Json) → Bool
  | [] => true
  | (k, v) :: rest => k.data.all cleanChar && cleanJson v && cleanFields rest

end

/-- First-match lookup among object fields (documents produced from Python
dicts never carry duplicate keys). -/
def lookupField : List (String × Json) → String → Option Json
  | [], _ => none
  | (k, v) :: rest, key => if k == key then some v else lookupField rest key

/-- PostgreSQL `json -> text`: extracts an object field as `json`; yields
SQL NULL (`none`) when the key is absent or the document is not an object.
A present JSON null is `some .null`, not SQL NULL. -/
def jget : Json → String → Option Json
  | .obj fields, k => lookupField fields k
  | _, _ => none

/-- Chained `->` on a possibly-NULL operand: SQL operators are strict, so a
NULL left-hand side propagates. -/
def jgetOpt (o : Option Json) (k : String) : Option Json :=
  o.bind (fun j => jget j k)

/-- PostgreSQL `json ->> text`: extracts an object field as `text`; a JSON
string loses its quotes, a JSON null or a missing key yields SQL NULL, any
other value yields its serialized text. -/
def jgetText (o : Option Json) (k : String) : Option String :=
  match jgetOpt o k with
  | none => none
  | some .null => none
  | some (.str s) => some s
  | some v => some (render v)

/-- Assignment of a `json` value to a `TEXT` column: PostgreSQL allows an
assignment cast to a string-category type via the I/O functions, so the
stored text is the serialized JSON (a JSON string keeps its quotes, a JSON
null becomes the four letters `null`); SQL NULL stays NULL. -/
def ioText (o : Option Json) : Option String :=
  o.map render

/-- PostgreSQL `CONCAT(a, b)` on two `json` arguments: each is converted to
text via its output function, and NULL arguments are treated as empty
strings, so the result is never NULL. -/
def concat2 (a b : Option Json) : String :=
  (a.map render).getD "" ++ (b.map render).getD ""

/-- One row of the `identities` table: `id TEXT NOT NULL PRIMARY KEY,
username TEXT` (src/main.py lines 103-108). -/
structure IdentityRow where
  id : String
  username : Option String
deriving DecidableEq

/-- One row of the `profiles` table: `identity_id TEXT NOT NULL UNIQUE
REFERENCES identities(id)` plus seven nullable payload columns
(src/main.py lines 110-121).  `date_of_birth` holds the text argument of
`to_timestamp` (see the header comment). -/
structure ProfileRow where
  identity_id : String
  date_of_birth : Option String
  gender : Option String
  state : Option String
  city : Option String
  zip : Option String
  picture_url : Option String
  cell : Option String
deriving DecidableEq

/-- Value of `CONCAT(data->'id'->'name', data->'id'->'value')`
(src/main.py lines 126 and 135). -/
def derivedId (data : Json) : String :=
  concat2 (jgetOpt (jget data "id") "name") (jgetOpt (jget data "id") "value")

/-- Value stored in `identities.username`: the `json` expression
`data->'login'->'username'` assigned to a `TEXT` column (src/main.py
line 127). -/
def derivedUsername (data : Json) : Option String :=
  ioText (jgetOpt (jget data "login") "username")

/-- Row produced by the SELECT list of `populate_profiles_table` for one
`api_results` document (src/main.py lines 134-142). -/
def deriveProfile (data : Json) : ProfileRow :=
  { identity_id := derivedId data
    date_of_birth := jgetText (jget data "dob") "date"
    gender := jgetText (some data) "gender"
    state := jgetText (jget data "location") "state"
    city := jgetText (jget data "location") "city"
    zip := jgetText (jget data "location") "zip"
    picture_url := jgetText (jget data "picture") "large"
    cell := jgetText (some data) "cell" }

/-- Membership of a key among the `id` values of an identities table. -/
def idKeyMem (l : List IdentityRow) (k : String) : Bool :=
  l.any (fun r => r.id == k)

/-- Membership of a key among the `identity_id` values of a profiles table. -/
def profKeyMem (l : List ProfileRow) (k : String) : Bool :=
  l.any (fun r => r.identity_id == k)

/-- Insertion of the identity row derived from one document, with
`ON CONFLICT (id) DO NOTHING` (src/main.py lines 123-130): a duplicate
primary key is silently skipped, also against rows inserted earlier in the
same statement. -/
def insertIdentity (acc : List IdentityRow) (d : Json) : List IdentityRow :=
  if idKeyMem acc (derivedId d) then acc
  else acc ++ [⟨derivedId d, derivedUsername d⟩]

/-- Row-by-row processing of the `INSERT INTO identities ... SELECT ... FROM
api_results` statement, in table scan order. -/
def insertIdentities (i : List IdentityRow) : List Json → List IdentityRow
  | [] => i
  | d :: ds => insertIdentities (insertIdentity i d) ds

/-- Effect of executing the SQL text `populate_identities_table`
(src/main.py lines 123-130) on the identities table, given the current
contents of `api_results`. -/
def populate_identities_table (api : List Json) (i : List IdentityRow) : List IdentityRow :=
  insertIdentities i api

/-- Insertion of one derived profile row with `ON CONFLICT (identity_id) DO
NOTHING` and the immediate foreign-key check `REFERENCES identities(id)`:
a duplicate `identity_id` is skipped before any insert happens, and a row
actually inserted must reference an existing identity, otherwise the whole
statement fails (`none`). -/
def insertProfile (ids : List IdentityRow) (acc : List ProfileRow) (row : ProfileRow) :
    Option (List ProfileRow) :=
  if profKeyMem acc row.identity_id then some acc
  else if idKeyMem ids row.identity_id then some (acc ++ [row])
  else none

/-- Row-by-row processing of the profile INSERT; a foreign-key failure
aborts the statement. -/
def insertProfiles (ids : List IdentityRow) (p : List ProfileRow) :
    List ProfileRow → Option (List ProfileRow)
  | [] => some p
  | row :: rest =>
      match insertProfile ids p row with
      | some p1 => insertProfiles ids p1 rest
      | none => none

/-- Deduplication pass of `SELECT DISTINCT`: one copy of each distinct
derived row (the result order of DISTINCT is unspecified; the model keeps
first occurrences in scan order). -/
def distinctAux (acc : List ProfileRow) : List ProfileRow → List ProfileRow
  | [] => acc
  | r :: rest => distinctAux (if r ∈ acc then acc else acc ++ [r]) rest

/-- Distinct rows of a derived profile list. -/
def distinctRows (rows : List ProfileRow) : List ProfileRow :=
  distinctAux [] rows

/-- Effect of executing the SQL text `populate_profiles_table`
(src/main.py lines 132-145) on the profiles table: derive a row per
`api_results` document, keep DISTINCT rows, insert with conflict-ignore on
`identity_id` under the foreign-key constraint (`none` = statement error). -/
def populate_profiles_table (api : List Json) (ids : List IdentityRow)
    (p : List ProfileRow) : Option (List ProfileRow) :=
  insertProfiles ids p (distinctRows (api.map deriveProfile))

/-- Database state: the three tables, each `none` while its relation does
not yet exist. -/
structure DB where
  api_results : Option (List Json)
  identities : Option (List IdentityRow)
  profiles : Option (List ProfileRow)

/-- Fresh database `random_user_sample` before any table exists. -/
def emptyDB : DB := ⟨none, none, none⟩

/-- Effect of `CREATE TABLE IF NOT EXISTS api_results` (src/main.py lines
97-101): creates the empty table when missing, otherwise does nothing. -/
def create_api_results_table (db : DB) : DB :=
  { db with api_results := some (db.api_results.getD []) }

/-- Effect of `CREATE TABLE IF NOT EXISTS identities` (src/main.py lines
103-108). -/
def create_identities_table (db : DB) : DB :=
  { db with identities := some (db.identities.getD []) }

/-- Effect of `CREATE TABLE IF NOT EXISTS profiles` (src/main.py lines
110-121); its `REFERENCES identities(id)` clause makes creation fail (and
roll back, modelled as a no-op) when `identities` does not exist. -/
def create_profiles_table (db : DB) : DB :=
  if db.identities.isSome then { db with profiles := some (db.profiles.getD []) }
  else db

/-- `setup_db` (src/main.py lines 148-154): executes the three CREATE
statements in source order inside one transaction. -/
def setup_db (db : DB) : DB :=
  create_profiles_table (create_identities_table (create_api_results_table db))

/-- `load_users_into_api_results(users)` (src/main.py lines 161-164):
`cursor.copy_from(StringIO(json.dumps(users)), "api_results")`.
`json.dumps` emits the whole list as ONE line, so COPY appends exactly one
row whose document is the whole JSON array — provided the serialization
contains no backslash escape for COPY to mangle (see the header comment);
otherwise the batch fails and rolls back.  A missing relation likewise
fails the statement. -/
def load_users_into_api_results (users : List Json) (db : DB) : DB :=
  match db.api_results with
  | none => db
  | some rows =>
      if cleanJson (Json.arr users) then
        { db with api_results := some (rows ++ [Json.arr users]) }
      else db

/-- `load_results_into_identities_and_profiles()` (src/main.py lines
167-171): executes `populate_identities_table` then
`populate_profiles_table` in one transaction; any statement failure rolls
both back. -/
def load_results_into_identities_and_profiles (db : DB) : DB :=
  match db.api_results, db.identities, db.profiles with
  | some a, some i, some p =>
      let i2 := populate_identities_table a i
      match populate_profiles_table a i2 p with
      | some p2 => { db with identities := some i2, profiles := some p2 }
      | none => db
  | _, _, _ => db

/-- Outcome of the single `requests.get` call: either the request raises
(network failure) or an HTTP response arrives with a status code and a
body that may or may not parse as JSON (`none` = `resp.json()` raises). -/
inductive NetResult where
  | failure (msg : String)
  | response (status : Nat) (body : Option Json)

/-- `get_random_users(amount)` (src/main.py lines 157-158):
`r.get(f"https://randomuser.me/api/?results=\x7bamount\x7d").json()["results"]`.
The network is an oracle from the requested amount to an outcome.  The
code never inspects `status_code` and never calls `raise_for_status`, so
the status plays no role; a raised exception propagates (there is no
try/except and no retry anywhere in the module). -/
def get_random_users (amount : Nat) (net : Nat → NetResult) : Except String Json :=
  match net amount with
  | .failure msg => .error msg
  | .response _ none => .error "JSONDecodeError"
  | .response _ (some body) =>
      match jget body "results" with
      | some v => .ok v
      | none => .error "KeyError: results"

/-- One pipeline stage, as sequenced by `main()` (src/main.py lines
174-178). -/
inductive Op where
  | setup
  | load (users : List Json)
  | normalize

/-- Effect of one stage on the database. -/
def stepOp (db : DB) : Op → DB
  | .setup => setup_db db
  | .load users => load_users_into_api_results users db
  | .normalize => load_results_into_identities_and_profiles db

/-- State after a sequence of stages run against a fresh database. -/
def runOps (ops : List Op) : DB :=
  ops.foldl stepOp emptyDB

/-- Referential integrity of a database state: every `profiles` row
references an existing `identities` row (vacuous while a table is
missing). -/
def fkInv (db : DB) : Bool :=
  (db.profiles.getD []).all (fun r => idKeyMem (db.identities.getD []) r.identity_id)

/-- The `location` object of the documented sample record (src/main.py
lines 35-48): it carries a `postcode` field and no `zip` field. -/
def sampleLocation : List (String × Json) :=
  [ ("street", .str "9278 new road"),
    ("city", .str "kilcoole"),
    ("state", .str "waterford"),
    ("postcode", .str "93027"),
    ("coordinates", .obj [("latitude", .str "20.9267"), ("longitude", .str "-7.9310")]),
    ("timezone", .obj [("offset", .str "-3:30"), ("description", .str "Newfoundland")]) ]

/-- The documented sample record from the module docstring of src/main.py
(lines 28-79): the one raw user object shown for the randomuser.me
response. -/
def sampleFields : List (String × Json) :=
  [ ("gender", .str "male"),
    ("name", .obj [("title", .str "mr"), ("first", .str "brad"), ("last", .str "gibson")]),
    ("location", .obj sampleLocation),
    ("email", .str "brad.gibson@example.com"),
    ("login", .obj
      [ ("uuid", .str "155e77ee-ba6d-486f-95ce-0e0c0fb4b919"),
        ("username", .str "silverswan131"),
        ("password", .str "firewall"),
        ("salt", .str "TQA1Gz7x"),
        ("md5", .str "dc523cb313b63dfe5be2140b0c05b3bc"),
        ("sha1", .str "7a4aa07d1bedcc6bcf4b7f8856643492c191540d"),
        ("sha256", .str "74364e96174afa7d17ee52dd2c9c7a4651fe1254f471a78bda0190135dcd3480") ]),
    ("dob", .obj [("date", .str "1993-07-20T09:44:18.674Z"), ("age", .num 26)]),
    ("registered", .obj [("date", .str "2002-05-21T10:59:49.966Z"), ("age", .num 17)]),
    ("phone", .str "011-962-7516"),
    ("cell", .str "081-454-0666"),
    ("id", .obj [("name", .str "PPS"), ("value", .str "0390511T")]),
    ("picture", .obj
      [ ("large", .str "https://randomuser.me/api/portraits/men/75.jpg"),
        ("medium", .str "https://randomuser.me/api/portraits/med/men/75.jpg"),
        ("thumbnail", .str "https://randomuser.me/api/portraits/thumb/men/75.jpg") ]),
    ("nat", .str "IE") ]

/-- The documented sample record as a JSON document. -/
def sampleRecord : Json := .obj sampleFields

/-- Database state after running the full pipeline (schema setup, load,
normalize) on a batch holding exactly the documented sample record. -/
def samplePipelineDB : DB :=
  load_results_into_identities_and_profiles
    (load_users_into_api_results [sampleRecord] (setup_db emptyDB))

/-- Minimal record whose id object matches the sample and whose login
username is `alice`; used to exercise duplicate derived keys. -/
def recAlice : Json :=
  .obj [ ("id", .obj [("name", .str "PPS"), ("value", .str "0390511T")]),
         ("login", .obj [("username", .str "alice")]) ]

/-- Companion record with the same id object but username `bob`. -/
def recBob : Json :=
  .obj [ ("id", .obj [("name", .str "PPS"), ("value", .str "0390511T")]),
         ("login", .obj [("username", .str "bob")]) ]

/-- Database state after loading the two-record batch `[recAlice, recBob]`
into an initialized empty database. -/
def twoRecordLoadDB : DB :=
  load_users_into_api_results [recAlice, recBob] (setup_db emptyDB)

/-- Database state after the full pipeline on an empty batch (the
`amount=0` run: the fetcher returns `[]`). -/
def zeroPipelineDB : DB :=
  load_results_into_identities_and_profiles
    (load_users_into_api_results [] (setup_db emptyDB))

/-- Inserting one identity row preserves key membership. -/
theorem idKeyMem_insertIdentity (acc : List IdentityRow) (d : Json) (k : String)
    (h : idKeyMem acc k = true) : idKeyMem (insertIdentity acc d) k = true := by
  unfold insertIdentity
  split
  · exact h
  · unfold idKeyMem at h ⊢
    simp [List.any_append, h]

/-- After processing a document, its derived key is present. -/
theorem idKeyMem_insertIdentity_self (acc : List IdentityRow) (d : Json) :
    idKeyMem (insertIdentity acc d) (derivedId d) = true := by
  unfold insertIdentity
  split
  · assumption
  · unfold idKeyMem
    simp [List.any_append]

/-- The identities statement preserves key membership. -/
theorem idKeyMem_insertIdentities (a : List Json) : ∀ (i : List IdentityRow) (k : String),
    idKeyMem i k = true → idKeyMem (insertIdentities i a) k = true := by
  induction a with
  | nil => intro i k h; exact h
  | cons d ds ih => intro i k h; exact ih _ k (idKeyMem_insertIdentity i d k h)

/-- After the identities statement, every key derived from a scanned
document is present. -/
theorem idKeyMem_covers (a : List Json) : ∀ (i : List IdentityRow) (d : Json), d ∈ a →
    idKeyMem (insertIdentities i a) (derivedId d) = true := by
  induction a with
  | nil => intro i d h; cases h
  | cons x ds ih =>
      intro i d h
      rcases List.mem_cons.mp h with h | h
      · subst h
        exact idKeyMem_insertIdentities ds _ _ (idKeyMem_insertIdentity_self i d)
      · exact ih _ d h

/-- When every derived key is already present, the identities statement is
a no-op (all inserts hit the conflict clause). -/
theorem insertIdentities_noop (a : List Json) : ∀ (i : List IdentityRow),
    (∀ d ∈ a, idKeyMem i (derivedId d) = true) → insertIdentities i a = i := by
  induction a with
  | nil => intro i _; rfl
  | cons d ds ih =>
      intro i h
      have hd : idKeyMem i (derivedId d) = true := h d (List.mem_cons_self d ds)
      have hins : insertIdentity i d = i := by unfold insertIdentity; simp [hd]
      show insertIdentities (insertIdentity i d) ds = i
      rw [hins]
      exact ih i (fun x hx => h x (List.mem_cons_of_mem d hx))

/-- One conflict-ignoring insert keeps the per-key row count at most one. -/
theorem countP_insertIdentity (acc : List IdentityRow) (d : Json) (k : String)
    (h : acc.countP (fun r => r.id == k) ≤ 1) :
    (insertIdentity acc d).countP (fun r => r.id == k) ≤ 1 := by
  unfold insertIdentity
  split
  · exact h
  · case isFalse hmem =>
      rw [List.countP_append]
      by_cases hk : derivedId d = k
      · subst hk
        have h0 : acc.countP (fun r => r.id == derivedId d) = 0 := by
          rw [List.countP_eq_zero]
          intro r hr hb
          exact hmem (by unfold idKeyMem; rw [List.any_eq_true]; exact ⟨r, hr, hb⟩)
        simp [h0, List.countP_cons]
      · have h1 : ([⟨derivedId d, derivedUsername d⟩] : List IdentityRow).countP
            (fun r => r.id == k) = 0 := by
          simp [List.countP_cons, beq_iff_eq, hk]
        rw [h1]
        omega

/-- The identities statement keeps the per-key row count at most one. -/
theorem countP_insertIdentities (a : List Json) : ∀ (i : List IdentityRow) (k : String),
    i.countP (fun r => r.id == k) ≤ 1 →
    (insertIdentities i a).countP (fun r => r.id == k) ≤ 1 := by
  induction a with
  | nil => intro i k h; exact h
  | cons d ds ih => intro i k h; exact ih _ k (countP_insertIdentity i d k h)

/-- Key membership yields a positive per-key row count. -/
theorem countP_pos_of_idKeyMem (l : List IdentityRow) (k : String)
    (h : idKeyMem l k = true) : 0 < l.countP (fun r => r.id == k) := by
  unfold idKeyMem at h
  rw [List.any_eq_true] at h
  obtain ⟨r, hr, hb⟩ := h
  exact List.countP_pos_iff.mpr ⟨r, hr, hb⟩

/-- Case analysis of one profile insert that did not error: either the key
conflicted and nothing changed, or the row was appended after its
foreign-key check. -/
theorem insertProfile_cases (ids : List IdentityRow) (p : List ProfileRow) (row : ProfileRow)
    (p1 : List ProfileRow) (h : insertProfile ids p row = some p1) :
    (p1 = p ∧ profKeyMem p row.identity_id = true) ∨
    (p1 = p ++ [row] ∧ idKeyMem ids row.identity_id = true) := by
  unfold insertProfile at h
  split at h
  · left; exact ⟨(Option.some.inj h).symm, by assumption⟩
  · split at h
    · right; exact ⟨(Option.some.inj h).symm, by assumption⟩
    · cases h

/-- A profile insert whose foreign key resolves cannot error. -/
theorem insertProfile_isSome (ids : List IdentityRow) (p : List ProfileRow) (row : ProfileRow)
    (hrow : idKeyMem ids row.identity_id = true) :
    ∃ p1, insertProfile ids p row = some p1 := by
  unfold insertProfile
  split
  · exact ⟨p, rfl⟩
  · exact ⟨p ++ [row], rfl⟩

/-- Unfolding equation: a successful head insert continues with the rest. -/
theorem insertProfiles_cons_some (ids : List IdentityRow) (p : List ProfileRow)
    (row : ProfileRow) (rest : List ProfileRow) (p1 : List ProfileRow)
    (h : insertProfile ids p row = some p1) :
    insertProfiles ids p (row :: rest) = insertProfiles ids p1 rest := by
  simp only [insertProfiles, h]

/-- Unfolding equation: a failed head insert fails the statement. -/
theorem insertProfiles_cons_none (ids : List IdentityRow) (p : List ProfileRow)
    (row : ProfileRow) (rest : List ProfileRow)
    (h : insertProfile ids p row = none) :
    insertProfiles ids p (row :: rest) = none := by
  simp only [insertProfiles, h]

/-- One profile insert preserves key membership. -/
theorem profKeyMem_insertProfile (ids : List IdentityRow) (p : List ProfileRow)
    (row : ProfileRow) (p1 : List ProfileRow) (k : String)
    (h : insertProfile ids p row = some p1) (hk : profKeyMem p k = true) :
    profKeyMem p1 k = true := by
  rcases insertProfile_cases ids p row p1 h with ⟨rfl, _⟩ | ⟨rfl, _⟩
  · exact hk
  · unfold profKeyMem at hk ⊢
    simp [List.any_append, hk]

/-- After one profile insert, the processed row's key is present. -/
theorem profKeyMem_insertProfile_self (ids : List IdentityRow) (p : List ProfileRow)
    (row : ProfileRow) (p1 : List ProfileRow) (h : insertProfile ids p row = some p1) :
    profKeyMem p1 row.identity_id = true := by
  rcases insertProfile_cases ids p row p1 h with ⟨rfl, hk⟩ | ⟨rfl, _⟩
  · exact hk
  · unfold profKeyMem
    simp [List.any_append]

/-- When all rows pass the foreign-key check, the profile statement does
not error. -/
theorem insertProfiles_total (ids : List IdentityRow) (rows : List ProfileRow) :
    ∀ p : List ProfileRow, (∀ row ∈ rows, idKeyMem ids row.identity_id = true) →
    ∃ p2, insertProfiles ids p rows = some p2 := by
  induction rows with
  | nil => intro p _; exact ⟨p, rfl⟩
  | cons row rest ih =>
      intro p h
      obtain ⟨p1, hp1⟩ :=
        insertProfile_isSome ids p row (h row (List.mem_cons_self row rest))
      rw [insertProfiles_cons_some ids p row rest p1 hp1]
      exact ih p1 (fun x hx => h x (List.mem_cons_of_mem row hx))

/-- The profile statement only adds rows: prior rows survive. -/
theorem insertProfiles_mem_mono (ids : List IdentityRow) (rows : List ProfileRow) :
    ∀ p p2 : List ProfileRow, insertProfiles ids p rows = some p2 → ∀ r ∈ p, r ∈ p2 := by
  induction rows with
  | nil => intro p p2 h r hr; cases Option.some.inj h; exact hr
  | cons row rest ih =>
      intro p p2 h r hr
      cases hip : insertProfile ids p row with
      | none => rw [insertProfiles_cons_none ids p row rest hip] at h; cases h
      | some p1 =>
          rw [insertProfiles_cons_some ids p row rest p1 hip] at h
          refine ih p1 p2 h r ?_
          rcases insertProfile_cases ids p row p1 hip with ⟨rfl, _⟩ | ⟨rfl, _⟩
          · exact hr
          · exact List.mem_append_left _ hr

/-- The profile statement preserves key membership. -/
theorem insertProfiles_keymem_mono (ids : List IdentityRow) (rows : List ProfileRow) :
    ∀ (p p2 : List ProfileRow) (k : String), insertProfiles ids p rows = some p2 →
    profKeyMem p k = true → profKeyMem p2 k = true := by
  induction rows with
  | nil => intro p p2 k h hk; cases Option.some.inj h; exact hk
  | cons row rest ih =>
      intro p p2 k h hk
      cases hip : insertProfile ids p row with
      | none => rw [insertProfiles_cons_none ids p row rest hip] at h; cases h
      | some p1 =>
          rw [insertProfiles_cons_some ids p row rest p1 hip] at h
          exact ih p1 p2 k h (profKeyMem_insertProfile ids p row p1 k hip hk)

/-- After a successful profile statement, every processed row's key is
present. -/
theorem insertProfiles_covers (ids : List IdentityRow) (rows : List ProfileRow) :
    ∀ p p2 : List ProfileRow, insertProfiles ids p rows = some p2 →
    ∀ row ∈ rows, profKeyMem p2 row.identity_id = true := by
  induction rows with
  | nil => intro p p2 _ row hrow; cases hrow
  | cons x rest ih =>
      intro p p2 h row hrow
      cases hip : insertProfile ids p x with
      | none => rw [insertProfiles_cons_none ids p x rest hip] at h; cases h
      | some p1 =>
          rw [insertProfiles_cons_some ids p x rest p1 hip] at h
          rcases List.mem_cons.mp hrow with hr | hr
          · subst hr
            exact insertProfiles_keymem_mono ids rest p1 p2 row.identity_id h
              (profKeyMem_insertProfile_self ids p row p1 hip)
          · exact ih p1 p2 h row hr

/-- When every processed key is already present, the profile statement is
a no-op (all inserts hit the conflict clause). -/
theorem insertProfiles_noop (ids : List IdentityRow) (rows : List ProfileRow) :
    ∀ p : List ProfileRow, (∀ row ∈ rows, profKeyMem p row.identity_id = true) →
    insertProfiles ids p rows = some p := by
  induction rows with
  | nil => intro p _; rfl
  | cons row rest ih =>
      intro p h
      have hk : profKeyMem p row.identity_id = true := h row (List.mem_cons_self row rest)
      have hip : insertProfile ids p row = some p := by
        unfold insertProfile
        rw [if_pos hk]
      rw [insertProfiles_cons_some ids p row rest p hip]
      exact ih p (fun x hx => h x (List.mem_cons_of_mem row hx))

/-- Every row present after a successful profile statement was either
already there or passed the foreign-key check on insertion. -/
theorem insertProfiles_fk (ids : List IdentityRow) (rows : List ProfileRow) :
    ∀ p p2 : List ProfileRow, insertProfiles ids p rows = some p2 →
    ∀ r ∈ p2, r ∈ p ∨ idKeyMem ids r.identity_id = true := by
  induction rows with
  | nil => intro p p2 h r hr; cases Option.some.inj h; left; exact hr
  | cons row rest ih =>
      intro p p2 h r hr
      cases hip : insertProfile ids p row with
      | none => rw [insertProfiles_cons_none ids p row rest hip] at h; cases h
      | some p1 =>
          rw [insertProfiles_cons_some ids p row rest p1 hip] at h
          rcases ih p1 p2 h r hr with hr1 | hkey
          · rcases insertProfile_cases ids p row p1 hip with ⟨rfl, _⟩ | ⟨rfl, hfk⟩
            · left; exact hr1
            · rcases List.mem_append.mp hr1 with hr2 | hr2
              · left; exact hr2
              · right
                have : r = row := by simpa using hr2
                subst this
                exact hfk
          · right; exact hkey

/-- Every row kept by DISTINCT occurs in the input. -/
theorem distinctAux_sub (rows : List ProfileRow) : ∀ (acc : List ProfileRow) (r : ProfileRow),
    r ∈ distinctAux acc rows → r ∈ acc ∨ r ∈ rows := by
  induction rows with
  | nil => intro acc r h; left; exact h
  | cons x rest ih =>
      intro acc r h
      rcases ih (if x ∈ acc then acc else acc ++ [x]) r h with h2 | h2
      · by_cases hx : x ∈ acc
        · rw [if_pos hx] at h2; left; exact h2
        · rw [if_neg hx] at h2
          rcases List.mem_append.mp h2 with h3 | h3
          · left; exact h3
          · right
            have : r = x := by simpa using h3
            subst this
            exact List.mem_cons_self r rest
      · right; exact List.mem_cons_of_mem x h2

/-- Rows of `distinctRows rows` occur in `rows`. -/
theorem distinctRows_sub (rows : List ProfileRow) (r : ProfileRow)
    (h : r ∈ distinctRows rows) : r ∈ rows := by
  rcases distinctAux_sub rows [] r h with h2 | h2
  · cases h2
  · exact h2

/-- The profile statement never errors when run right after the identities
statement of the same normalizer transaction: the identities statement has
inserted every derived key, so all foreign keys resolve. -/
theorem populate_profiles_table_total (a : List Json) (i : List IdentityRow)
    (p : List ProfileRow) :
    ∃ p2, populate_profiles_table a (populate_identities_table a i) p = some p2 := by
  apply insertProfiles_total
  intro row hrow
  obtain ⟨d, hd, hrowd⟩ := List.mem_map.mp (distinctRows_sub _ row hrow)
  have hkey : row.identity_id = derivedId d := by rw [← hrowd]; rfl
  rw [hkey]
  exact idKeyMem_covers a i d hd

/-- Shape of a successful normalizer run on a state with all tables. -/
theorem normalize_some (a : List Json) (i : List IdentityRow) (p : List ProfileRow)
    (p2 : List ProfileRow)
    (hp2 : populate_profiles_table a (populate_identities_table a i) p = some p2) :
    load_results_into_identities_and_profiles ⟨some a, some i, some p⟩ =
      ⟨some a, some (populate_identities_table a i), some p2⟩ := by
  unfold load_results_into_identities_and_profiles
  simp only [hp2]

/-- The `fkInv` Bool unfolds to element-wise referential integrity. -/
theorem fkInv_iff (db : DB) : fkInv db = true ↔
    ∀ r ∈ db.profiles.getD [], idKeyMem (db.identities.getD []) r.identity_id = true := by
  unfold fkInv
  rw [List.all_eq_true]

/-- One pipeline stage preserves referential integrity. -/
theorem fkInv_stepOp (db : DB) (op : Op) (h : fkInv db = true) :
    fkInv (stepOp db op) = true := by
  cases op with
  | setup =>
      rcases db with ⟨oa, oi, op'⟩
      rcases oi with _ | i <;> rcases op' with _ | p <;>
        simp_all [stepOp, setup_db, create_api_results_table, create_identities_table,
          create_profiles_table, fkInv]
  | load users =>
      rcases db with ⟨oa, oi, op'⟩
      rcases oa with _ | rows
      · exact h
      · by_cases hc : cleanJson (Json.arr users) = true
        · simp_all [stepOp, load_users_into_api_results, fkInv]
        · simp_all [stepOp, load_users_into_api_results, fkInv]
  | normalize =>
      rcases db with ⟨oa, oi, op'⟩
      rcases oa with _ | a
      · exact h
      rcases oi with _ | i
      · exact h
      rcases op' with _ | p
      · exact h
      obtain ⟨p2, hp2⟩ := populate_profiles_table_total a i p
      show fkInv (load_results_into_identities_and_profiles ⟨some a, some i, some p⟩) = true
      rw [normalize_some a i p p2 hp2]
      rw [fkInv_iff] at h ⊢
      intro r hr
      rcases insertProfiles_fk (populate_identities_table a i) _ p p2 hp2 r hr with hrp | hkey
      · exact idKeyMem_insertIdentities a i r.identity_id (h r hrp)
      · exact hkey

/-- Referential integrity is preserved along any run. -/
theorem fkInv_foldl (ops : List Op) : ∀ db : DB, fkInv db = true →
    fkInv (ops.foldl stepOp db) = true := by
  induction ops with
  | nil => intro db h; exact h
  | cons op rest ih => intro db h; exact ih (stepOp db op) (fkInv_stepOp db op h)

/-- Claim C1 (code bug, actual behavior): running the full pipeline on the
documented sample record does NOT yield an identity row with primary key
`PPS0390511T` and username `silverswan131`.  `copy_from` stores the whole
one-element batch as a single `api_results` row holding the JSON array, so
`data->'id'` is NULL for that row, `CONCAT` collapses to the empty string,
and the lone identity row has id `""` and NULL username; the lone profile
row references `""` with NULL gender, state and city. -/
theorem c1_pipeline_actual_output :
    (samplePipelineDB.identities.getD []).map (fun r => (r.id, r.username)) =
      [(("" : String), (none : Option String))] ∧
    (samplePipelineDB.profiles.getD []).map
      (fun r => (r.identity_id, r.gender, r.state, r.city)) =
      [(("" : String), (none : Option String), (none : Option String), (none : Option String))] ∧
    ("" : String) ≠ "PPS0390511T" :=
  ⟨rfl, rfl, by decide⟩

/-- Claim C2 (code bug, actual behavior): loading a two-record batch adds
exactly ONE `api_results` row, holding the serialized two-element array,
not one row per record: `json.dumps(users)` is a single line, and COPY
makes one row per line. -/
theorem c2_loader_single_row :
    twoRecordLoadDB.api_results = some [Json.arr [recAlice, recBob]] ∧
    (twoRecordLoadDB.api_results.getD []).length = 1 ∧ (1 : Nat) ≠ 2 :=
  ⟨rfl, rfl, by decide⟩

/-- Claim C3 (confirmed): the Normalizer is idempotent — on every database
state, running `load_results_into_identities_and_profiles` twice gives
exactly the state of running it once, so the second run inserts nothing
into `identities` or `profiles`. -/
theorem c3_normalizer_idempotent (db : DB) :
    load_results_into_identities_and_profiles (load_results_into_identities_and_profiles db) =
      load_results_into_identities_and_profiles db := by
  rcases db with ⟨oa, oi, op⟩
  rcases oa with _ | a
  · rfl
  rcases oi with _ | i
  · rfl
  rcases op with _ | p
  · rfl
  obtain ⟨p2, hp2⟩ := populate_profiles_table_total a i p
  rw [normalize_some a i p p2 hp2]
  have hnoop : populate_identities_table a (populate_identities_table a i) =
      populate_identities_table a i :=
    insertIdentities_noop a _ (fun d hd => idKeyMem_covers a i d hd)
  have hcov : ∀ row ∈ distinctRows (a.map deriveProfile),
      profKeyMem p2 row.identity_id = true :=
    insertProfiles_covers (populate_identities_table a i) _ p p2 hp2
  have hpp : populate_profiles_table a (populate_identities_table a (populate_identities_table a i)) p2 =
      some p2 := by
    rw [hnoop]
    exact insertProfiles_noop (populate_identities_table a i) _ p2 hcov
  rw [normalize_some a (populate_identities_table a i) p2 p2 hpp]
  rw [hnoop]

/-- Claim C4 (confirmed): after any sequence of pipeline stages run
against a fresh database, every `profiles` row references an existing
`identities` row. -/
theorem c4_referential_integrity (ops : List Op) : fkInv (runOps ops) = true :=
  fkInv_foldl ops emptyDB rfl

/-- Claim C5 counterexample: `get_random_users` never inspects the HTTP
status code, so a non-200 response whose body is valid JSON with a
`results` key yields a normal return value, contradicting the claim that
a non-200 response always aborts the job. -/
theorem c5_status_not_checked :
    get_random_users 5000
        (fun _ => NetResult.response 500 (some (Json.obj [("results", Json.arr [])]))) =
      Except.ok (Json.arr []) ∧ (500 : Nat) ≠ 200 :=
  ⟨rfl, by decide⟩

/-- Claim C5 as amended: a network failure, a malformed-JSON body, or a
body without a `results` key each propagate as a fatal error with no
retry; the status code itself is never checked. -/
theorem c5_fetch_error_propagation (amount status : Nat) (msg : String) (body : Json)
    (hb : jget body "results" = none) :
    get_random_users amount (fun _ => NetResult.failure msg) = Except.error msg ∧
    get_random_users amount (fun _ => NetResult.response status none) =
      Except.error "JSONDecodeError" ∧
    get_random_users amount (fun _ => NetResult.response status (some body)) =
      Except.error "KeyError: results" := by
  refine ⟨rfl, rfl, ?_⟩
  show (match jget body "results" with
        | some v => Except.ok v
        | none => (Except.error "KeyError: results" : Except String Json)) =
      Except.error "KeyError: results"
  rw [hb]

/-- Claim C5 amended witness: the three failure modes at concrete inputs. -/
theorem c5_fetch_error_propagation_witness :
    jget (Json.obj []) "results" = none ∧
    (get_random_users 1 (fun _ => NetResult.failure "connection refused") =
        Except.error "connection refused" ∧
      get_random_users 1 (fun _ => NetResult.response 404 none) =
        Except.error "JSONDecodeError" ∧
      get_random_users 1 (fun _ => NetResult.response 404 (some (Json.obj []))) =
        Except.error "KeyError: results") :=
  ⟨rfl, c5_fetch_error_propagation 1 404 "connection refused" (Json.obj []) rfl⟩

/-- Claim C6 (code bug, actual behavior): running the pipeline with an
empty batch (`amount=0`) is NOT free of new rows: `json.dumps([])` is the
line `[]`, so COPY adds one `api_results` row holding the empty array, and
the Normalizer then derives one identity row with key `""` and NULL
username and one profile row referencing it. -/
theorem c6_zero_records_actual :
    (load_users_into_api_results [] (setup_db emptyDB)).api_results = some [Json.arr []] ∧
    zeroPipelineDB.identities = some [⟨"", none⟩] ∧
    zeroPipelineDB.profiles = some [⟨"", none, none, none, none, none, none, none⟩] :=
  ⟨rfl, rfl, rfl⟩

/-- Claim C7 (confirmed): whenever some scanned document derives the key
`k` and the identities table respects its primary-key constraint (at most
one row per key), the Normalizer leaves EXACTLY one identities row with id
`k` — in particular, two raw records with the same derived key but
different usernames yield a single row for that key. -/
theorem c7_identity_key_unique (a : List Json) (i : List IdentityRow) (p : List ProfileRow)
    (d : Json) (k : String) (hd : d ∈ a) (hk : derivedId d = k)
    (hpk : i.countP (fun r => r.id == k) ≤ 1) :
    ((load_results_into_identities_and_profiles
        ⟨some a, some i, some p⟩).identities.getD []).countP (fun r => r.id == k) = 1 := by
  obtain ⟨p2, hp2⟩ := populate_profiles_table_total a i p
  rw [normalize_some a i p p2 hp2]
  show (insertIdentities i a).countP (fun r => r.id == k) = 1
  have hle := countP_insertIdentities a i k hpk
  have hpos := countP_pos_of_idKeyMem (insertIdentities i a) k
    (by rw [← hk]; exact idKeyMem_covers a i d hd)
  omega

/-- Claim C7 witness: two raw records with the same id object but
usernames `alice` and `bob` leave exactly one identities row for the
derived key. -/
theorem c7_identity_key_unique_witness :
    (recAlice ∈ [recAlice, recBob] ∧ derivedId recAlice = "\"PPS\"\"0390511T\"" ∧
      ([] : List IdentityRow).countP (fun r => r.id == "\"PPS\"\"0390511T\"") ≤ 1) ∧
    ((load_results_into_identities_and_profiles
        ⟨some [recAlice, recBob], some [], some []⟩).identities.getD []).countP
      (fun r => r.id == "\"PPS\"\"0390511T\"") = 1 :=
  ⟨⟨List.mem_cons_self recAlice [recBob], rfl, by decide⟩,
    c7_identity_key_unique [recAlice, recBob] [] [] recAlice _
      (List.mem_cons_self recAlice [recBob]) rfl (by decide)⟩

/-- Claim C8 (confirmed): when the three tables already exist, `setup_db`
is a no-op: each `CREATE TABLE IF NOT EXISTS` leaves schema and contents
untouched. -/
theorem c8_setup_db_idempotent (db : DB) (a : List Json) (i : List IdentityRow)
    (p : List ProfileRow) (h1 : db.api_results = some a) (h2 : db.identities = some i)
    (h3 : db.profiles = some p) : setup_db db = db := by
  rcases db with ⟨oa, oi, op⟩
  dsimp only at h1 h2 h3
  subst h1
  subst h2
  subst h3
  rfl

/-- Claim C8 witness: `setup_db` at a concrete initialized database. -/
theorem c8_setup_db_idempotent_witness :
    setup_db ⟨some [sampleRecord], some [], some []⟩ =
      (⟨some [sampleRecord], some [], some []⟩ : DB) :=
  c8_setup_db_idempotent _ [sampleRecord] [] [] rfl rfl rfl

/-- Claim C9 (confirmed): `api_results` is append-only — for any state of
the table, the Raw Loader leaves the old rows untouched (it either adds a
single batch row at the end or, on failure, rolls back), and the
Normalizer never changes `api_results` at all. -/
theorem c9_api_results_append_only (db : DB) (l : List Json) (users : List Json)
    (h : db.api_results = some l) :
    ((load_users_into_api_results users db).api_results = some l ∨
      (load_users_into_api_results users db).api_results = some (l ++ [Json.arr users])) ∧
    (load_results_into_identities_and_profiles db).api_results = db.api_results := by
  constructor
  · unfold load_users_into_api_results
    rw [h]
    by_cases hc : cleanJson (Json.arr users) = true
    · right
      simp [hc]
    · left
      simp [hc, h]
  · rcases db with ⟨oa, oi, op⟩
    rcases oa with _ | a
    · rfl
    rcases oi with _ | i
    · rfl
    rcases op with _ | p
    · rfl
    obtain ⟨p2, hp2⟩ := populate_profiles_table_total a i p
    rw [normalize_some a i p p2 hp2]

/-- Claim C9 witness: loader and normalizer at a concrete state. -/
theorem c9_api_results_append_only_witness :
    ((load_users_into_api_results [] ⟨some [], some [], some []⟩).api_results = some [] ∨
      (load_users_into_api_results [] ⟨some [], some [], some []⟩).api_results =
        some ([] ++ [Json.arr []])) ∧
    (load_results_into_identities_and_profiles
        ⟨some [], some [], some []⟩).api_results =
      (⟨some [], some [], some []⟩ : DB).api_results :=
  c9_api_results_append_only ⟨some [], some [], some []⟩ [] [] rfl

/-- Claim C10 (confirmed): for any raw record of the documented API shape
— an object whose `location` is an object carrying a `postcode` field and
no `zip` field — the derived profile row's zip value is SQL NULL, because
the statement projects `data->'location'->>'zip'` and the key is absent. -/
theorem c10_zip_null (fields loc : List (String × Json)) (pc : Json)
    (hloc : jget (Json.obj fields) "location" = some (Json.obj loc))
    (_hpc : lookupField loc "postcode" = some pc)
    (hzip : lookupField loc "zip" = none) :
    (deriveProfile (Json.obj fields)).zip = none := by
  show jgetText (jget (Json.obj fields) "location") "zip" = none
  rw [hloc]
  unfold jgetText jgetOpt
  simp [jget, hzip]

/-- Claim C10 witness: the documented sample record has a `postcode` and
no `zip`, and its derived profile zip is NULL. -/
theorem c10_zip_null_witness :
    jget (Json.obj sampleFields) "location" = some (Json.obj sampleLocation) ∧
    lookupField sampleLocation "postcode" = some (Json.str "93027") ∧
    lookupField sampleLocation "zip" = none ∧
    (deriveProfile sampleRecord).zip = none :=
  ⟨rfl, rfl, rfl,
    c10_zip_null sampleFields sampleLocation (Json.str "93027") rfl rfl rfl⟩

end RandomUserMe
